import Mathlib

/-!
Verification of the expense-report → accounting-journal converter (`app.py`).

The development shallowly embeds the core of the program: category
classification (`split_categories`), memo construction
(`build_memo_series` and its helpers `_col_letter_to_idx`,
`_pick_by_letter`, `_join_clean`, `_format_mmdd`), compound-voucher
construction (`build_compound_voucher`, `normalize_tax`) and the
configuration store round-trip (`save_config` / `load_config` over the
JSON document, modelled by `save_then_load`).

Tables are modelled as a header list plus rows of cells, where a cell is
`Option String`: `none` stands for a pandas missing value (NaN).
Machine floats produced by `pd.to_numeric` are modelled as `Option Int`
(the amounts of this domain are integral JPY); `errors="coerce"` is the
`none` case.  External library capabilities that the source calls but
does not define (pandas date parsing, numeric coercion) are modelled by
executable Lean functions whose doc comments state the modelled subset.
-/

/-- A cell of the input table: `none` models a pandas missing value (NaN). -/
abbrev Cell := Option String

/-- A row of the input table: cells in physical column order. -/
abbrev Row := List Cell

/-- An input table: physical column labels in order, and rows of cells
addressed positionally (cell `i` of a row belongs to header `i`),
mirroring a `pandas.DataFrame`. -/
structure Table where
  headers : List String
  rows : List Row
deriving DecidableEq, Repr

/-- Whitespace recognised by Python `str.strip`. -/
def isSpaceChar (c : Char) : Bool :=
  c = ' ' || c = '\t' || c = '\n' || c = '\r' || c = '\x0b' || c = '\x0c'

/-- Python `str.strip()`: drop leading and trailing whitespace. -/
def pyStrip (s : String) : String :=
  ⟨((s.data.dropWhile isSpaceChar).reverse.dropWhile isSpaceChar).reverse⟩

/-- Python `str.upper()` restricted to ASCII letters (the letters used by
the program are ASCII column letters). -/
def upperStr (s : String) : String :=
  ⟨s.data.map Char.toUpper⟩

/-- Python `str.lower()` restricted to ASCII letters. -/
def lowerStr (s : String) : String :=
  ⟨s.data.map Char.toLower⟩

/-- Whether `pat` occurs at the start of `cs`. -/
def startsWithChars : List Char → List Char → Bool
  | [], _ => true
  | _ :: _, [] => false
  | p :: ps, c :: cs => p = c && startsWithChars ps cs

/-- Whether `pat` occurs somewhere inside `cs` (substring search, the
semantics of `Series.str.contains` on a literal alternative branch). -/
def hasSubstring (pat : List Char) : List Char → Bool
  | [] => startsWithChars pat []
  | c :: cs => startsWithChars pat (c :: cs) || hasSubstring pat cs

/-- `strContains s pat`: `pat` occurs as a substring of `s`. -/
def strContains (s pat : String) : Bool :=
  hasSubstring pat.data s.data

/-- `_coerce_str` of `app.py` applied to one cell: `astype(str)` turns NaN
into the text `"nan"`, and the subsequent `replace` maps the exact values
`"nan"` and `"NaT"` to the empty string. -/
def coerceStr : Cell → String
  | none => ""
  | some s => if s = "nan" || s = "NaT" then "" else s

/-- The corporate-card marker test: `str.contains("AMEX|アメックス", case=False)`
applied to one already-coerced value.  With `case=False` the pattern is
matched ignoring ASCII letter case; the katakana alternative has no case. -/
def containsAmex (v : String) : Bool :=
  strContains (lowerStr v) "amex" || strContains (lowerStr v) "アメックス"

/-- The commute marker test: `str.contains("交通費", na=False)` applied to one
already-coerced value. -/
def containsKotsu (v : String) : Bool :=
  strContains v "交通費"

/-- The three journal categories, the keys `"amex"` / `"keihi"` /
`"kotsuhi"` of the source. -/
inductive Kind where
  | amex
  | keihi
  | kotsuhi
deriving DecidableEq, Repr

/-- The `SRC_HEADERS` section of the configuration: logical field name →
physical column label. -/
structure SrcHeaders where
  date : String
  account : String
  subaccount : String
  dept : String
  tax : String
  amount : String
  memo : String
  pay_method : String
  card_brand : String
  ticket_type : String
deriving DecidableEq, Repr

/-- One entry of `CREDIT_RULES`: the credit-side
account/sub-account/department/tax-code quadruple of a category. -/
structure CreditRule where
  acct : String
  sub : String
  dept : String
  tax : String
deriving DecidableEq, Repr

/-- The operational configuration used by the conversion: `SRC_HEADERS`,
`TAX_MAP` (keys are `Option String` because `DEFAULT_CONFIG` contains the
Python key `None` next to string keys), and one credit rule per category. -/
structure Config where
  srcHeaders : SrcHeaders
  taxMap : List (Option String × String)
  amexRule : CreditRule
  keihiRule : CreditRule
  kotsuhiRule : CreditRule
deriving DecidableEq, Repr

/-- `CONFIG["CREDIT_RULES"][kind]`. -/
def Config.creditRule (cfg : Config) : Kind → CreditRule
  | .amex => cfg.amexRule
  | .keihi => cfg.keihiRule
  | .kotsuhi => cfg.kotsuhiRule

/-- The operational part of `DEFAULT_CONFIG` of `app.py`. -/
def defaultConfig : Config :=
  { srcHeaders :=
      { date := "日付"
        account := "勘定科目名"
        subaccount := "補助科目名"
        dept := "負担部門(選択必須)"
        tax := "税率"
        amount := "小計"
        memo := "自由記入欄"
        pay_method := "支払方法"
        card_brand := "カード"
        ticket_type := "伝票種別" }
    taxMap :=
      [ (some "課対仕入込10%", "課対仕入10%")
      , (some "課対仕入込軽減8%", "課対仕入8%_軽減")
      , (some "対象外", "対象外")
      , (none, "対象外") ]
    amexRule := { acct := "未払金", sub := "AMEX", dept := "本社", tax := "対象外" }
    keihiRule := { acct := "未払金", sub := "従業員立替", dept := "本社", tax := "対象外" }
    kotsuhiRule := { acct := "未払金", sub := "従業員立替", dept := "本社", tax := "対象外" } }

/-- Index of the first physical column whose label equals `label`
(`df[label]` resolves to this column; `none` when the label is absent,
which in pandas raises `KeyError`). -/
def Table.colIdx (t : Table) (label : String) : Option Nat :=
  t.headers.findIdx? (fun c => c == label)

/-- Whether `label in df.columns`. -/
def Table.hasCol (t : Table) (label : String) : Bool :=
  (t.colIdx label).isSome

/-- `df[label]` as a list of cells (one per row, positional), or `none`
when the column is absent. -/
def Table.col (t : Table) (label : String) : Option (List Cell) :=
  (t.colIdx label).map (fun i => t.rows.map (fun r => r.getD i none))

/-- The cell of `row` under header index `i` (missing positions read as
NaN, matching rectangular pandas frames). -/
def cellAt (row : Row) (i : Nat) : Cell :=
  row.getD i none

/-- `df.columns = [str(c).strip() for c in df.columns]` of
`split_categories`: the copy of the table whose labels are stripped. -/
def stripHeaders (t : Table) : Table :=
  { headers := t.headers.map pyStrip, rows := t.rows }

/-- The corporate-card mask of `split_categories` evaluated at one row:
true when the configured pay-method column or card-brand column is
present and its coerced value contains the marker; an absent column
contributes `False` to the mask. -/
def amexSignal (cfg : Config) (headers : List String) (row : Row) : Bool :=
  (match headers.findIdx? (fun c => c == cfg.srcHeaders.pay_method) with
   | some i => containsAmex (coerceStr (cellAt row i))
   | none => false)
  ||
  (match headers.findIdx? (fun c => c == cfg.srcHeaders.card_brand) with
   | some i => containsAmex (coerceStr (cellAt row i))
   | none => false)

/-- The commute mask of `split_categories` evaluated at one row: true when
the configured ticket-type column is present and its coerced value
contains the marker. -/
def kotsuSignal (cfg : Config) (headers : List String) (row : Row) : Bool :=
  match headers.findIdx? (fun c => c == cfg.srcHeaders.ticket_type) with
  | some i => containsKotsu (coerceStr (cellAt row i))
  | none => false

/-- `split_categories` of `app.py`: header labels are stripped, the amex
mask takes `df[amex]`, the expense set takes `df[~amex & ~kotsu]`, and the
commute set takes `df[kotsu & ~amex]`; boolean-mask selection keeps row
order. -/
def split_categories (cfg : Config) (t : Table) : Table × Table × Table :=
  let d := stripHeaders t
  ( { headers := d.headers, rows := d.rows.filter (fun r => amexSignal cfg d.headers r) }
  , { headers := d.headers
      rows := d.rows.filter (fun r => !amexSignal cfg d.headers r && !kotsuSignal cfg d.headers r) }
  , { headers := d.headers
      rows := d.rows.filter (fun r => kotsuSignal cfg d.headers r && !amexSignal cfg d.headers r) } )

/-- `_col_letter_to_idx` of `app.py`: strip, uppercase, then fold base-26
over the ASCII letters (non-letters are skipped by the guard), finally
subtract one.  The result is an `Int` because the empty fold gives `-1`. -/
def _col_letter_to_idx (col : String) : Int :=
  (((upperStr (pyStrip col)).data.foldl
      (fun val ch => if 'A' ≤ ch ∧ ch ≤ 'Z' then val * 26 + (ch.toNat - 'A'.toNat + 1) else val)
      0 : Nat) : Int) - 1

/-- One step of `_pick_by_letter`: `row.iloc[idx]` when `0 <= idx < len(row)`,
else the empty string; a NaN cell reads as the empty string. -/
def pickByLetterOne (row : Row) (col : String) : String :=
  let idx := _col_letter_to_idx col
  if 0 ≤ idx ∧ idx < (row.length : Int) then
    match cellAt row idx.toNat with
    | none => ""
    | some s => s
  else ""

/-- `_pick_by_letter` of `app.py`. -/
def _pick_by_letter (row : Row) (letters : List String) : List String :=
  letters.map (pickByLetterOne row)

/-- `_join_clean` of `app.py`: strip every part, drop the empty ones, join
with the separator. -/
def _join_clean (parts : List String) (sep : String) : String :=
  String.intercalate sep ((parts.map pyStrip).filter (fun p => p != ""))

/-- Accumulate a decimal digit list into a natural number. -/
def digitsToNat (ds : List Char) : Nat :=
  ds.foldl (fun a c => a * 10 + (c.toNat - '0'.toNat)) 0

/-- Modelled from the spec: the standard date parsing capability
(`pd.to_datetime(..., errors="coerce")`, an external pandas facility whose
code is not part of this repository), restricted to ISO `YYYY-MM-DD` text
with basic month/day range checks; every other text is a parse failure
(`none`, pandas `NaT`). -/
def parseYMD (s : String) : Option (Nat × Nat × Nat) :=
  match s.data with
  | [y1, y2, y3, y4, '-', m1, m2, '-', d1, d2] =>
    if (y1.isDigit && y2.isDigit && y3.isDigit && y4.isDigit
        && m1.isDigit && m2.isDigit && d1.isDigit && d2.isDigit) then
      let m := digitsToNat [m1, m2]
      let d := digitsToNat [d1, d2]
      if 1 ≤ m ∧ m ≤ 12 ∧ 1 ≤ d ∧ d ≤ 31 then
        some (digitsToNat [y1, y2, y3, y4], m, d)
      else none
    else none
  | _ => none

/-- Zero-pad to two digits, the `%m` / `%d` / `{...:02d}` formatting. -/
def pad2 (n : Nat) : String :=
  if n < 10 then "0" ++ toString n else toString n

/-- `strftime("%Y-%m-%d")` on a parsed date. -/
def fmtYMD (ymd : Nat × Nat × Nat) : String :=
  toString ymd.1 ++ "-" ++ pad2 ymd.2.1 ++ "-" ++ pad2 ymd.2.2

/-- The second group of the fallback pattern `(\d{1,2})[slash-hyphen](\d{1,2})`:
greedily one or two digits at the current position. -/
def secondGroup : List Char → Option Nat
  | c1 :: c2 :: _ =>
    if c1.isDigit then
      some (if c2.isDigit then digitsToNat [c1, c2] else c1.toNat - '0'.toNat)
    else none
  | [c1] => if c1.isDigit then some (c1.toNat - '0'.toNat) else none
  | [] => none

/-- Whether a character is one of the separators `[slash-hyphen]`. -/
def isSepChar (c : Char) : Bool :=
  c = '/' || c = '-'

/-- Match `(\d{1,2})[slash-hyphen](\d{1,2})` anchored at the start of the list, with
the backtracking of the greedy first group: two digits are taken when the
next character is a separator, else one digit whose next character must be
a separator. -/
def matchMMDDAt : List Char → Option (Nat × Nat)
  | c1 :: c2 :: c3 :: rest =>
    if c1.isDigit && c2.isDigit then
      if isSepChar c3 then (secondGroup rest).map (fun b => (digitsToNat [c1, c2], b))
      else none
    else if c1.isDigit && isSepChar c2 then
      (secondGroup (c3 :: rest)).map (fun b => (c1.toNat - '0'.toNat, b))
    else none
  | _ => none

/-- `re.search(r"(\d{1,2})[slash-hyphen](\d{1,2})", ...)`: the leftmost match. -/
def searchMMDD : List Char → Option (Nat × Nat)
  | [] => none
  | c :: cs =>
    match matchMMDDAt (c :: cs) with
    | some r => some r
    | none => searchMMDD cs

/-- `_format_mmdd` of `app.py`: standard date parsing first
(`strftime("%m/%d")` on success), then the zero-padded first
`digit(s)[slash-hyphen]digit(s)` pattern, then the original text unchanged. -/
def _format_mmdd (val : String) : String :=
  match parseYMD val with
  | some ymd => pad2 ymd.2.1 ++ "/" ++ pad2 ymd.2.2
  | none =>
    match searchMMDD val.data with
    | some ab => pad2 ab.1 ++ "/" ++ pad2 ab.2
    | none => val

/-- `_MEMO_PARTS` of `app.py`. -/
def _MEMO_PARTS : Kind → List String
  | .amex => ["G", "C", "P"]
  | .keihi => ["G", "C", "AM", "P"]
  | .kotsuhi => ["G", "C", "M", "K", "P"]

/-- The memo of one row in `build_memo_series`: positional values of the
category's letters, the value at a letter whose upper case is `"C"`
reformatted by `_format_mmdd`, then `_join_clean` with a space. -/
def memoOfRow (kind : Kind) (row : Row) : String :=
  let parts := _MEMO_PARTS kind
  let vals := _pick_by_letter row parts
  _join_clean
    ((parts.zip vals).map (fun pv => if upperStr pv.1 = "C" then _format_mmdd pv.2 else pv.2))
    " "

/-- `build_memo_series` of `app.py`: one memo per row, in row order. -/
def build_memo_series (df : Table) (kind : Kind) : List String :=
  df.rows.map (memoOfRow kind)

/-- Modelled from the spec: the numeric coercion capability
(`pd.to_numeric(..., errors="coerce")`, an external pandas facility whose
code is not part of this repository), restricted to optionally
sign-prefixed decimal-integer text after stripping (the JPY amounts of
this domain); every other cell coerces to `none` (pandas NaN). -/
def parseNum (c : Cell) : Option Int :=
  match c with
  | none => none
  | some s =>
    match (pyStrip s).data with
    | [] => none
    | '-' :: ds =>
      if ds ≠ [] ∧ ds.all Char.isDigit then some (-(digitsToNat ds : Int)) else none
    | ds =>
      if ds.all Char.isDigit then some ((digitsToNat ds : Int)) else none

/-- `normalize_tax` of `app.py`: `CONFIG["TAX_MAP"].get(name, name)`.
A string label found among the keys maps to its entry; an unmapped string
label defaults to itself.  A missing value (pandas NaN) matches no key —
in particular not the Python `None` key of `DEFAULT_CONFIG`, since
`NaN != None` — so `.get`'s default returns the NaN itself. -/
def normalize_tax (cfg : Config) (name : Cell) : Cell :=
  match name with
  | some s => some (((cfg.taxMap.find? (fun kv => kv.1 == some s)).map Prod.snd).getD s)
  | none => none

/-- One line of the produced journal table, the fields of
`OUTPUT_COLUMNS` in canonical order (voucher id, date, debit side, credit
side, remarks). -/
structure JLine where
  voucher : String
  date : Option String
  debAccount : Cell
  debSub : Cell
  debDept : Cell
  debTax : Cell
  debAmount : Option Int
  debMemo : String
  credAccount : String
  credSub : String
  credDept : String
  credTax : String
  credAmount : Int
  credMemo : String
  remarks : String
deriving DecidableEq, Repr

/-- Line `i` of the body of `build_compound_voucher` once the mandatory
columns have resolved: the debit side (normalized date, verbatim account,
guarded sub-account/department/tax, coerced amount, memo), and the credit
side applying the category's rule with the summed total of all coercible
amounts on the first line and `0` elsewhere, reusing the same memo.  The
final `out[pd.notna(out["借方金額"])]` filter of the source is applied by
`buildLines` below. -/
def buildLine (cfg : Config) (df : Table) (kind : Kind) (voucher_id : String)
    (dateCol acctCol amtCol : List Cell) (i : Nat) : JLine :=
  let memos := build_memo_series df kind
  let amts := amtCol.map parseNum
  let total := amts.foldl (fun a x => a + x.getD 0) 0
  let rule := cfg.creditRule kind
  { voucher := voucher_id
    date := ((dateCol.getD i none).bind parseYMD).map fmtYMD
    debAccount := acctCol.getD i none
    debSub :=
      match df.col cfg.srcHeaders.subaccount with
      | some c => c.getD i none
      | none => some ""
    debDept :=
      match df.col cfg.srcHeaders.dept with
      | some c => c.getD i none
      | none => some ""
    debTax :=
      match df.col cfg.srcHeaders.tax with
      | some c => normalize_tax cfg (c.getD i none)
      | none => some "対象外"
    debAmount := amts.getD i none
    debMemo := memos.getD i ""
    credAccount := rule.acct
    credSub := rule.sub
    credDept := rule.dept
    credTax := rule.tax
    credAmount := if i = 0 then total else 0
    credMemo := memos.getD i ""
    remarks := "" }

/-- The list of journal lines of the voucher: one per input row, then the
`pd.notna` filter on the debit amount. -/
def buildLines (cfg : Config) (df : Table) (kind : Kind) (voucher_id : String)
    (dateCol acctCol amtCol : List Cell) : List JLine :=
  ((List.range df.rows.length).map (buildLine cfg df kind voucher_id dateCol acctCol amtCol)).filter
    (fun l => l.debAmount.isSome)

/-- `build_compound_voucher` of `app.py`.  The unguarded column reads
`df[h["date"]]`, `df[h["account"]]` and `df[h["amount"]]` raise `KeyError`
when the label is absent, in that evaluation order; on an empty frame the
credit-amount list `[total] + [0]*(len(deb)-1)` has length 1 and the
`pd.DataFrame` constructor raises a length-mismatch `ValueError`. -/
def build_compound_voucher (cfg : Config) (df : Table) (kind : Kind)
    (voucher_id : String) : Except String (List JLine) :=
  match df.col cfg.srcHeaders.date, df.col cfg.srcHeaders.account,
        df.col cfg.srcHeaders.amount with
  | none, _, _ => .error ("KeyError: " ++ cfg.srcHeaders.date)
  | some _, none, _ => .error ("KeyError: " ++ cfg.srcHeaders.account)
  | some _, some _, none => .error ("KeyError: " ++ cfg.srcHeaders.amount)
  | some dateCol, some acctCol, some amtCol =>
    if df.rows.isEmpty then
      .error "ValueError: Length of values (1) does not match length of index (0)"
    else
      .ok (buildLines cfg df kind voucher_id dateCol acctCol amtCol)

mutual
/-- A Python value as stored in the configuration document: strings,
`None`, lists, and dicts whose keys are strings or `None` (the key shapes
that occur in `DEFAULT_CONFIG`). -/
inductive PyVal where
  | vstr : String → PyVal
  | vnull : PyVal
  | vlist : PyList → PyVal
  | vdict : PyDict → PyVal
inductive PyList where
  | nil : PyList
  | cons : PyVal → PyList → PyList
inductive PyDict where
  | nil : PyDict
  | cons : Option String → PyVal → PyDict → PyDict
end

/-- Convert a plain list of values into a `PyList`. -/
def plistOf : List PyVal → PyList
  | [] => .nil
  | x :: xs => .cons x (plistOf xs)

/-- Convert a plain association list into a `PyDict`. -/
def pdictOf : List (Option String × PyVal) → PyDict
  | [] => .nil
  | kv :: kvs => .cons kv.1 kv.2 (pdictOf kvs)

/-- `json.dump`'s coercion of a Python dict key to a JSON object key: a
string key is kept, the key `None` becomes the string `"null"`. -/
def pyKeyStr : Option String → String
  | some s => s
  | none => "null"

mutual
/-- `save_config` followed by `load_config` of `app.py`, on the value
level: `json.dump(data, f, ensure_ascii=False, indent=2)` serializes the
document (stringifying dict keys, `None` becomes `"null"`) and `json.load`
parses it back, so every dict key of the reloaded document is a string;
strings, `None` values, lists and dicts otherwise survive unchanged.
(After a save the file exists, so `load_config` takes the read branch,
not the `DEFAULT_CONFIG` fallback.) -/
def save_then_load : PyVal → PyVal
  | .vstr s => .vstr s
  | .vnull => .vnull
  | .vlist xs => .vlist (saveLoadList xs)
  | .vdict kvs => .vdict (saveLoadDict kvs)
def saveLoadList : PyList → PyList
  | .nil => .nil
  | .cons x xs => .cons (save_then_load x) (saveLoadList xs)
def saveLoadDict : PyDict → PyDict
  | .nil => .nil
  | .cons k v tl => .cons (some (pyKeyStr k)) (save_then_load v) (saveLoadDict tl)
end

mutual
/-- Whether every dict key of the document is a string (no `None` key). -/
def strKeysV : PyVal → Bool
  | .vstr _ => true
  | .vnull => true
  | .vlist xs => strKeysL xs
  | .vdict kvs => strKeysD kvs
def strKeysL : PyList → Bool
  | .nil => true
  | .cons x xs => strKeysV x && strKeysL xs
def strKeysD : PyDict → Bool
  | .nil => true
  | .cons k v tl => k.isSome && strKeysV v && strKeysD tl
end

/-- The full `DEFAULT_CONFIG` dict of `app.py` as a document value.  Its
`TAX_MAP` section contains the Python key `None` next to string keys. -/
def DEFAULT_CONFIG : PyVal :=
  .vdict (pdictOf
    [ (some "INPUT_SHEET", .vstr "②データ貼付")
    , (some "OUTPUT_COLUMNS", .vlist (plistOf
        [ .vstr "伝票番号", .vstr "日付"
        , .vstr "借方勘定科目", .vstr "借方補助科目", .vstr "借方部門"
        , .vstr "借方税区分", .vstr "借方金額", .vstr "借方摘要"
        , .vstr "貸方勘定科目", .vstr "貸方補助科目", .vstr "貸方部門"
        , .vstr "貸方税区分", .vstr "貸方金額", .vstr "貸方摘要"
        , .vstr "備考" ]))
    , (some "SRC_HEADERS", .vdict (pdictOf
        [ (some "date", .vstr "日付")
        , (some "account", .vstr "勘定科目名")
        , (some "subaccount", .vstr "補助科目名")
        , (some "dept", .vstr "負担部門(選択必須)")
        , (some "tax", .vstr "税率")
        , (some "amount", .vstr "小計")
        , (some "memo", .vstr "自由記入欄")
        , (some "pay_method", .vstr "支払方法")
        , (some "card_brand", .vstr "カード")
        , (some "ticket_type", .vstr "伝票種別") ]))
    , (some "TAX_MAP", .vdict (pdictOf
        [ (some "課対仕入込10%", .vstr "課対仕入10%")
        , (some "課対仕入込軽減8%", .vstr "課対仕入8%_軽減")
        , (some "対象外", .vstr "対象外")
        , (none, .vstr "対象外") ]))
    , (some "CREDIT_RULES", .vdict (pdictOf
        [ (some "amex", .vdict (pdictOf
            [ (some "貸方勘定科目", .vstr "未払金")
            , (some "貸方補助科目", .vstr "AMEX")
            , (some "貸方部門", .vstr "本社")
            , (some "貸方税区分", .vstr "対象外") ]))
        , (some "keihi", .vdict (pdictOf
            [ (some "貸方勘定科目", .vstr "未払金")
            , (some "貸方補助科目", .vstr "従業員立替")
            , (some "貸方部門", .vstr "本社")
            , (some "貸方税区分", .vstr "対象外") ]))
        , (some "kotsuhi", .vdict (pdictOf
            [ (some "貸方勘定科目", .vstr "未払金")
            , (some "貸方補助科目", .vstr "従業員立替")
            , (some "貸方部門", .vstr "本社")
            , (some "貸方税区分", .vstr "対象外") ])) ])) ])

/-- The keys of a `PyDict`, in order. -/
def keysOf : PyDict → List (Option String)
  | .nil => []
  | .cons k _ tl => k :: keysOf tl

/-- The keys of the `TAX_MAP` entry of a dict, scanning the entries in
order (empty when no dict-valued `TAX_MAP` entry exists). -/
def taxKeysOfDict : PyDict → List (Option String)
  | .nil => []
  | .cons k v tl =>
    if k == some "TAX_MAP" then
      match v with
      | .vdict inner => keysOf inner
      | _ => taxKeysOfDict tl
    else taxKeysOfDict tl

/-- The keys of the `TAX_MAP` section of a configuration document (empty
when the shape differs), used to tell two documents apart. -/
def taxMapKeys (v : PyVal) : List (Option String) :=
  match v with
  | .vdict kvs => taxKeysOfDict kvs
  | _ => []

/-- A category table whose first row has an unparseable amount and whose
second row has amount 100 (headers place `小計` at letter-C position 2). -/
def tblC1 : Table :=
  { headers := ["日付", "勘定科目名", "小計"]
  , rows :=
    [ [some "2025-10-01", some "旅費", some "abc"]
    , [some "2025-10-02", some "会議費", some "100"] ] }

/-- A one-row table whose tax label `軽減税率8%` is not a `TAX_MAP` key. -/
def tblTax : Table :=
  { headers := ["日付", "勘定科目名", "小計", "税率"]
  , rows := [ [some "2025-10-01", some "会議費", some "100", some "軽減税率8%"] ] }

/-- A non-empty table lacking the configured amount column `小計`. -/
def tblNoAmt : Table :=
  { headers := ["日付", "勘定科目名"]
  , rows := [ [some "2025-10-01", some "会議費"] ] }

/-- A non-empty table with date/account/amount columns but no
sub-account, department or tax column. -/
def tblOpt : Table :=
  { headers := ["日付", "勘定科目名", "小計"]
  , rows := [ [some "2025-10-01", some "会議費", some "250"] ] }

/-- A row whose pay-method contains the marker in mixed case and whose
ticket-type contains the commute marker. -/
def rowMix : Row :=
  [some "2025-10-01", some "Amexカード", some "交通費", some "100", some "旅費"]

/-- A three-row table exercising all three categories. -/
def tblMix : Table :=
  { headers := ["日付", "支払方法", "伝票種別", "小計", "勘定科目名"]
  , rows :=
    [ rowMix
    , [some "2025-10-02", some "現金", some "交通費精算", some "200", some "旅費"]
    , [some "2025-10-03", some "現金", some "その他", some "300", some "消耗品"] ] }

/-- `tblMix` with whitespace padded around its header labels. -/
def tblMixWs : Table :=
  { headers := [" 日付", "支払方法 ", "  伝票種別", "小計", "勘定科目名 "]
  , rows := tblMix.rows }

/-- A small all-string-keys configuration document. -/
def docW : PyVal :=
  .vdict (pdictOf
    [ (some "INPUT_SHEET", .vstr "②データ貼付")
    , (some "TAX_MAP", .vdict (pdictOf [ (some "対象外", .vstr "対象外") ])) ])

mutual
def rtV : (v : PyVal) → strKeysV v = true → save_then_load v = v
  | .vstr _, _ => rfl
  | .vnull, _ => rfl
  | .vlist xs, h => congrArg PyVal.vlist (rtL xs h)
  | .vdict kvs, h => congrArg PyVal.vdict (rtD kvs h)

def rtL : (xs : PyList) → strKeysL xs = true → saveLoadList xs = xs
  | .nil, _ => rfl
  | .cons x xs, h =>
    congrArg₂ PyList.cons
      (rtV x ((Bool.and_eq_true _ _).mp h).1)
      (rtL xs ((Bool.and_eq_true _ _).mp h).2)

def rtD : (kvs : PyDict) → strKeysD kvs = true → saveLoadDict kvs = kvs
  | .nil, _ => rfl
  | .cons (some s) v tl, h =>
    congrArg₂ (PyDict.cons (some s))
      (rtV v ((Bool.and_eq_true _ _).mp ((Bool.and_eq_true _ _).mp h).1).2)
      (rtD tl ((Bool.and_eq_true _ _).mp h).2)
  | .cons none _ _, h => Bool.noConfusion h
end

/-- The single journal line produced for `tblOpt` under the default
configuration (category `keihi`). -/
def lineOpt : JLine :=
  { voucher := "KEIHI-20251002-002"
  , date := some "2025-10-01"
  , debAccount := some "会議費"
  , debSub := some ""
  , debDept := some ""
  , debTax := some "対象外"
  , debAmount := some 250
  , debMemo := "250"
  , credAccount := "未払金"
  , credSub := "従業員立替"
  , credDept := "本社"
  , credTax := "対象外"
  , credAmount := 250
  , credMemo := "250"
  , remarks := "" }

/-- The journal table produced for `tblOpt`. -/
def linesOpt : List JLine := [lineOpt]

/-- The journal table produced for `tblTax` under the default
configuration (category `keihi`): one line whose debit tax code is the
unmapped label itself. -/
def linesTax : List JLine :=
  [ { voucher := "KEIHI-20251002-001"
    , date := some "2025-10-01"
    , debAccount := some "会議費"
    , debSub := some ""
    , debDept := some ""
    , debTax := some "軽減税率8%"
    , debAmount := some 100
    , debMemo := "100"
    , credAccount := "未払金"
    , credSub := "従業員立替"
    , credDept := "本社"
    , credTax := "対象外"
    , credAmount := 100
    , credMemo := "100"
    , remarks := "" } ]

theorem filter3_length {α : Type} (p q : α → Bool) (l : List α) :
    (l.filter p).length
      + (l.filter (fun x => !p x && !q x)).length
      + (l.filter (fun x => q x && !p x)).length = l.length := by
  induction l with
  | nil => rfl
  | cons x xs ih =>
    cases hp : p x <;> cases hq : q x <;>
      simp [List.filter_cons, hp, hq] <;> omega

theorem range_map_getD {α β : Type} (l : List α) (d : α) (f : α → β) :
    (List.range l.length).map (fun i => f (l.getD i d)) = l.map f := by
  induction l with
  | nil => rfl
  | cons x xs ih =>
    rw [List.length_cons, List.range_succ_eq_map, List.map_cons, List.map_cons, List.map_map]
    refine congrArg₂ List.cons rfl ?_
    rw [← ih]
    apply List.map_congr_left
    intro i _
    simp [List.getD_cons_succ]

theorem col_none_of_hasCol_false (t : Table) (lbl : String)
    (h : t.hasCol lbl = false) : t.col lbl = none := by
  unfold Table.hasCol at h
  unfold Table.col
  cases hi : t.colIdx lbl with
  | none => rfl
  | some i => rw [hi] at h; simp at h

theorem col_some_of_hasCol (t : Table) (lbl : String)
    (h : t.hasCol lbl = true) : ∃ c, t.col lbl = some c := by
  unfold Table.hasCol at h
  cases hi : t.colIdx lbl with
  | none => rw [hi] at h; simp at h
  | some i => exact ⟨t.rows.map (fun r => r.getD i none), by unfold Table.col; rw [hi]; rfl⟩

theorem col_length (t : Table) (lbl : String) (c : List Cell)
    (h : t.col lbl = some c) : c.length = t.rows.length := by
  unfold Table.col at h
  cases hi : t.colIdx lbl with
  | none => rw [hi] at h; exact Option.noConfusion h
  | some i =>
    rw [hi] at h
    simp only [Option.map_some', Option.some.injEq] at h
    rw [← h, List.length_map]

/-- C5: `split_categories` assigns each row to exactly one of the three
category sets — the outputs are pairwise disjoint and their union is the
whole input row set — and row order within each output is the input order
(each output is a sublist of the input rows). -/
theorem split_categories_partition (cfg : Config) (t : Table) :
    (split_categories cfg t).1.rows.Sublist t.rows ∧
    (split_categories cfg t).2.1.rows.Sublist t.rows ∧
    (split_categories cfg t).2.2.rows.Sublist t.rows ∧
    (split_categories cfg t).1.rows.length + (split_categories cfg t).2.1.rows.length
      + (split_categories cfg t).2.2.rows.length = t.rows.length ∧
    ∀ r, r ∈ t.rows →
      (r ∈ (split_categories cfg t).1.rows ∧ r ∉ (split_categories cfg t).2.1.rows
         ∧ r ∉ (split_categories cfg t).2.2.rows) ∨
      (r ∉ (split_categories cfg t).1.rows ∧ r ∈ (split_categories cfg t).2.1.rows
         ∧ r ∉ (split_categories cfg t).2.2.rows) ∨
      (r ∉ (split_categories cfg t).1.rows ∧ r ∉ (split_categories cfg t).2.1.rows
         ∧ r ∈ (split_categories cfg t).2.2.rows) := by
  simp only [split_categories]
  refine ⟨List.filter_sublist _, List.filter_sublist _, List.filter_sublist _,
    filter3_length _ _ _, ?_⟩
  intro r hr
  cases ha : amexSignal cfg (stripHeaders t).headers r with
  | true =>
    refine Or.inl ⟨List.mem_filter.mpr ⟨hr, ha⟩, ?_, ?_⟩ <;>
      · intro hc
        have := (List.mem_filter.mp hc).2
        simp [ha] at this
  | false =>
    cases hk : kotsuSignal cfg (stripHeaders t).headers r with
    | true =>
      refine Or.inr (Or.inr ⟨?_, ?_, List.mem_filter.mpr ⟨hr, by simp [ha, hk]⟩⟩) <;>
        · intro hc
          have := (List.mem_filter.mp hc).2
          simp [ha, hk] at this
    | false =>
      refine Or.inr (Or.inl ⟨?_, List.mem_filter.mpr ⟨hr, by simp [ha, hk]⟩, ?_⟩) <;>
        · intro hc
          have := (List.mem_filter.mp hc).2
          simp [ha, hk] at this

/-- C5 witness: the first row of the mixed example table is in the
corporate-card output and in neither other output. -/
theorem split_categories_partition_witness :
    (rowMix ∈ (split_categories defaultConfig tblMix).1.rows
       ∧ rowMix ∉ (split_categories defaultConfig tblMix).2.1.rows
       ∧ rowMix ∉ (split_categories defaultConfig tblMix).2.2.rows) ∨
    (rowMix ∉ (split_categories defaultConfig tblMix).1.rows
       ∧ rowMix ∈ (split_categories defaultConfig tblMix).2.1.rows
       ∧ rowMix ∉ (split_categories defaultConfig tblMix).2.2.rows) ∨
    (rowMix ∉ (split_categories defaultConfig tblMix).1.rows
       ∧ rowMix ∉ (split_categories defaultConfig tblMix).2.1.rows
       ∧ rowMix ∈ (split_categories defaultConfig tblMix).2.2.rows) :=
  (split_categories_partition defaultConfig tblMix).2.2.2.2 rowMix (by decide)

/-- C6: a row whose configured pay-method or card-brand value contains
the corporate-card marker (the case-insensitive `amexSignal` mask) is
classified corporate-card and excluded from the other two outputs, with
no assumption on its ticket-type; and when both signal columns are absent
from the (stripped) header list the mask is `false` for every row rather
than an error. -/
theorem amex_priority (cfg : Config) (t : Table) :
    (∀ r ∈ t.rows, amexSignal cfg (stripHeaders t).headers r = true →
      r ∈ (split_categories cfg t).1.rows ∧
      r ∉ (split_categories cfg t).2.1.rows ∧
      r ∉ (split_categories cfg t).2.2.rows) ∧
    (cfg.srcHeaders.pay_method ∉ (stripHeaders t).headers →
     cfg.srcHeaders.card_brand ∉ (stripHeaders t).headers →
     ∀ r : Row, amexSignal cfg (stripHeaders t).headers r = false) := by
  constructor
  · intro r hr ha
    simp only [split_categories]
    refine ⟨List.mem_filter.mpr ⟨hr, ha⟩, ?_, ?_⟩ <;>
      · intro hc
        have := (List.mem_filter.mp hc).2
        simp [ha] at this
  · intro hp hc r
    have hp2 : (stripHeaders t).headers.findIdx?
        (fun c => c == cfg.srcHeaders.pay_method) = none :=
      List.findIdx?_eq_none_iff.mpr (fun x hx => by
        simp only [beq_eq_false_iff_ne, ne_eq]
        intro he; exact hp (he ▸ hx))
    have hc2 : (stripHeaders t).headers.findIdx?
        (fun c => c == cfg.srcHeaders.card_brand) = none :=
      List.findIdx?_eq_none_iff.mpr (fun x hx => by
        simp only [beq_eq_false_iff_ne, ne_eq]
        intro he; exact hc (he ▸ hx))
    simp [amexSignal, hp2, hc2]

/-- C6 witness: the mixed-case corporate-card row whose ticket-type also
contains the commute marker lands in the corporate-card output only. -/
theorem amex_priority_witness :
    rowMix ∈ (split_categories defaultConfig tblMix).1.rows ∧
    rowMix ∉ (split_categories defaultConfig tblMix).2.1.rows ∧
    rowMix ∉ (split_categories defaultConfig tblMix).2.2.rows :=
  (amex_priority defaultConfig tblMix).1 rowMix (by decide) (by decide)

/-- C10: classification only sees header labels through `str(c).strip()`,
so two tables with the same rows whose headers agree after stripping
surrounding whitespace classify every row identically. -/
theorem split_header_whitespace_invariant (cfg : Config) (t t' : Table)
    (hh : t.headers.map pyStrip = t'.headers.map pyStrip) (hr : t.rows = t'.rows) :
    split_categories cfg t = split_categories cfg t' := by
  have hst : stripHeaders t = stripHeaders t' := by
    simp [stripHeaders, hh, hr]
  unfold split_categories
  rw [hst]

/-- C10 witness: the mixed example table and its whitespace-padded-header
variant produce identical category outputs. -/
theorem split_header_whitespace_invariant_witness :
    split_categories defaultConfig tblMix = split_categories defaultConfig tblMixWs :=
  split_header_whitespace_invariant defaultConfig tblMix tblMixWs (by decide) rfl

/-- C7: column letters resolve by base-26 arithmetic — `"A"` to index 0,
`"Z"` to 25, `"AA"` to 26, `"AM"` to 38 — and a letter resolving outside
the row's index range yields the empty value instead of failing. -/
theorem col_letter_resolution :
    _col_letter_to_idx "A" = 0 ∧ _col_letter_to_idx "Z" = 25 ∧
    _col_letter_to_idx "AA" = 26 ∧ _col_letter_to_idx "AM" = 38 ∧
    ∀ (row : Row) (col : String),
      (_col_letter_to_idx col < 0 ∨ (row.length : Int) ≤ _col_letter_to_idx col) →
      pickByLetterOne row col = "" := by
  refine ⟨by decide, by decide, by decide, by decide, ?_⟩
  intro row col h
  have hneg : ¬ (0 ≤ _col_letter_to_idx col
      ∧ _col_letter_to_idx col < (row.length : Int)) := by
    rcases h with h | h
    · intro hcon; omega
    · intro hcon; omega
  simp [pickByLetterOne, hneg]

/-- C7 witness: letter `"Z"` is out of range for a one-cell row and
picks the empty value. -/
theorem col_letter_resolution_witness : pickByLetterOne [some "x"] "Z" = "" :=
  col_letter_resolution.2.2.2.2 [some "x"] "Z" (Or.inr (by decide))

/-- C8: the date fragment at the `"C"` memo position: `"2025-10-02"`
reformats to `"10/02"`; when standard date parsing fails, the first
`digit(s)[slash-hyphen]digit(s)` pattern is extracted zero-padded (so a
failing text containing `9/5` yields `"09/05"`); when the pattern search
also fails the original string is returned unchanged. -/
theorem format_mmdd_behavior :
    _format_mmdd "2025-10-02" = "10/02" ∧
    _format_mmdd "出張 9/5 移動" = "09/05" ∧
    (∀ (s : String) (a b : Nat), parseYMD s = none → searchMMDD s.data = some (a, b) →
      _format_mmdd s = pad2 a ++ "/" ++ pad2 b) ∧
    (∀ s : String, parseYMD s = none → searchMMDD s.data = none → _format_mmdd s = s) := by
  refine ⟨by decide, by decide, ?_, ?_⟩
  · intro s a b h1 h2
    simp [_format_mmdd, h1, h2]
  · intro s h1 h2
    simp [_format_mmdd, h1, h2]

/-- C8 witness: a text that fails date parsing but contains `9/5` yields
the zero-padded fragment, via the fallback clause of the theorem. -/
theorem format_mmdd_behavior_witness : _format_mmdd "伝票 9/5 分" = pad2 9 ++ "/" ++ pad2 5 :=
  format_mmdd_behavior.2.2.1 "伝票 9/5 分" 9 5 (by decide) (by decide)

theorem build_ok_elim (cfg : Config) (t : Table) (kind : Kind) (vid : String)
    (lines : List JLine)
    (h : build_compound_voucher cfg t kind vid = Except.ok lines) :
    ∃ dateCol acctCol amtCol, t.col cfg.srcHeaders.date = some dateCol
      ∧ t.col cfg.srcHeaders.account = some acctCol
      ∧ t.col cfg.srcHeaders.amount = some amtCol
      ∧ lines = buildLines cfg t kind vid dateCol acctCol amtCol := by
  unfold build_compound_voucher at h
  cases hd : t.col cfg.srcHeaders.date with
  | none => rw [hd] at h; exact Except.noConfusion h
  | some dateCol =>
    cases ha : t.col cfg.srcHeaders.account with
    | none => rw [hd, ha] at h; exact Except.noConfusion h
    | some acctCol =>
      cases hm : t.col cfg.srcHeaders.amount with
      | none => rw [hd, ha, hm] at h; exact Except.noConfusion h
      | some amtCol =>
        rw [hd, ha, hm] at h
        cases he : t.rows.isEmpty with
        | true => rw [he] at h; simp at h
        | false =>
          rw [he] at h
          simp only [Bool.false_eq_true, if_false, Except.ok.injEq] at h
          exact ⟨dateCol, acctCol, amtCol, rfl, rfl, rfl, h.symm⟩

/-- C9: every line of a journal table produced by `build_compound_voucher`
carries the same memo string on its debit side and its credit side. -/
theorem memo_debit_credit_equal (cfg : Config) (t : Table) (kind : Kind)
    (vid : String) (lines : List JLine)
    (h : build_compound_voucher cfg t kind vid = Except.ok lines) :
    ∀ l ∈ lines, l.debMemo = l.credMemo := by
  obtain ⟨dc, ac, mc, _, _, _, rfl⟩ := build_ok_elim cfg t kind vid lines h
  intro l hl
  simp only [buildLines] at hl
  obtain ⟨i, _, rfl⟩ := List.mem_map.mp (List.mem_of_mem_filter hl)
  rfl

/-- C9 witness: the one line built for `tblOpt` has equal debit and
credit memos. -/
theorem memo_debit_credit_equal_witness : lineOpt.debMemo = lineOpt.credMemo :=
  memo_debit_credit_equal defaultConfig tblOpt Kind.keihi "KEIHI-20251002-002"
    linesOpt rfl lineOpt (by decide)

theorem buildLine_debTax_of_col (cfg : Config) (t : Table) (kind : Kind) (vid : String)
    (dc ac mc taxCol : List Cell) (i : Nat)
    (htax : t.col cfg.srcHeaders.tax = some taxCol) :
    (buildLine cfg t kind vid dc ac mc i).debTax
      = normalize_tax cfg (taxCol.getD i none) := by
  simp [buildLine, htax]

theorem buildLines_map_debTax (cfg : Config) (t : Table) (kind : Kind) (vid : String)
    (dc ac mc taxCol : List Cell)
    (htax : t.col cfg.srcHeaders.tax = some taxCol) :
    ((buildLines cfg t kind vid dc ac mc).map JLine.debTax).Sublist
      (taxCol.map (normalize_tax cfg)) := by
  rw [buildLines]
  refine List.Sublist.trans (List.Sublist.map JLine.debTax (List.filter_sublist _)) ?_
  rw [List.map_map]
  have hfun : (JLine.debTax ∘ buildLine cfg t kind vid dc ac mc)
      = fun i => normalize_tax cfg (taxCol.getD i none) := by
    funext i
    exact buildLine_debTax_of_col cfg t kind vid dc ac mc taxCol i htax
  rw [hfun, ← col_length t cfg.srcHeaders.tax taxCol htax,
    range_map_getD taxCol none (normalize_tax cfg)]

/-- C2 (amended): the debit tax code is the `TAX_MAP` lookup of the
row's source tax label where an unmapped label passes through unchanged
(`dict.get(name, name)`) and a missing (NaN) label stays missing; only
when the tax column is absent from the input does every line get the
default `対象外`. -/
theorem tax_code_resolution (cfg : Config) (t : Table) (kind : Kind) (vid : String)
    (lines : List JLine)
    (h : build_compound_voucher cfg t kind vid = Except.ok lines) :
    (t.hasCol cfg.srcHeaders.tax = false → ∀ l ∈ lines, l.debTax = some "対象外") ∧
    (∀ taxCol, t.col cfg.srcHeaders.tax = some taxCol →
      (lines.map JLine.debTax).Sublist (taxCol.map (normalize_tax cfg))) ∧
    (∀ s : String, cfg.taxMap.find? (fun kv => kv.1 == some s) = none →
      normalize_tax cfg (some s) = some s) ∧
    normalize_tax cfg none = none := by
  obtain ⟨dc, ac, mc, _, _, _, rfl⟩ := build_ok_elim cfg t kind vid lines h
  refine ⟨?_, ?_, ?_, rfl⟩
  · intro htax l hl
    have hnone := col_none_of_hasCol_false t cfg.srcHeaders.tax htax
    simp only [buildLines] at hl
    obtain ⟨i, _, rfl⟩ := List.mem_map.mp (List.mem_of_mem_filter hl)
    simp [buildLine, hnone]
  · intro taxCol htax
    exact buildLines_map_debTax cfg t kind vid dc ac mc taxCol htax
  · intro s hs
    simp [normalize_tax, hs]

/-- C2 witness: for the one-row table with the unmapped tax label, the
produced debit tax codes are a sublist of the lookup-normalized tax
column. -/
theorem tax_code_resolution_witness :
    (linesTax.map JLine.debTax).Sublist
      ([some "軽減税率8%"].map (normalize_tax defaultConfig)) :=
  (tax_code_resolution defaultConfig tblTax Kind.keihi "KEIHI-20251002-001"
    linesTax rfl).2.1 [some "軽減税率8%"] rfl

/-- C2 counterexample: the unmapped source tax label `軽減税率8%` is not
normalized to the default `対象外` — `TAX_MAP.get(name, name)` returns the
label itself, so the produced debit tax code equals the input label. -/
theorem tax_unmapped_not_default :
    (build_compound_voucher defaultConfig tblTax Kind.keihi "KEIHI-20251002-001").map
        (fun ls => ls.map JLine.debTax) = Except.ok [some "軽減税率8%"]
    ∧ some "軽減税率8%" ≠ (some "対象外" : Cell) := ⟨rfl, by decide⟩

/-- C3 counterexample: a non-empty input lacking the configured amount
column makes `build_compound_voucher` raise (`df[h["amount"]]` is an
unguarded read), rather than degrading gracefully. -/
theorem build_missing_amount_column_errors :
    build_compound_voucher defaultConfig tblNoAmt Kind.keihi "KEIHI-20251002-001"
      = Except.error "KeyError: 小計" := rfl

/-- C3 (amended): absent optional columns degrade gracefully — a missing
sub-account or department column yields empty fields and a missing tax
column yields the default code on every line, with no error — provided
the date, account and amount columns are present (their absence raises a
`KeyError` instead). -/
theorem optional_columns_degrade (cfg : Config) (t : Table) (kind : Kind) (vid : String)
    (hd : t.hasCol cfg.srcHeaders.date = true)
    (ha : t.hasCol cfg.srcHeaders.account = true)
    (hm : t.hasCol cfg.srcHeaders.amount = true)
    (hs : t.hasCol cfg.srcHeaders.subaccount = false)
    (hp : t.hasCol cfg.srcHeaders.dept = false)
    (ht : t.hasCol cfg.srcHeaders.tax = false)
    (hne : t.rows ≠ []) :
    (build_compound_voucher cfg t kind vid).isOk = true ∧
    ∀ lines, build_compound_voucher cfg t kind vid = Except.ok lines →
      ∀ l ∈ lines, l.debSub = some "" ∧ l.debDept = some "" ∧ l.debTax = some "対象外" := by
  obtain ⟨dc, hdc⟩ := col_some_of_hasCol t _ hd
  obtain ⟨ac, hac⟩ := col_some_of_hasCol t _ ha
  obtain ⟨mc, hmc⟩ := col_some_of_hasCol t _ hm
  have hse := col_none_of_hasCol_false t _ hs
  have hpe := col_none_of_hasCol_false t _ hp
  have hte := col_none_of_hasCol_false t _ ht
  have hemp : t.rows.isEmpty = false := by
    cases hrows : t.rows with
    | nil => exact absurd hrows hne
    | cons a as => rfl
  constructor
  · unfold build_compound_voucher
    rw [hdc, hac, hmc]
    simp [hemp, Except.isOk, Except.toBool]
  · intro lines hok l hl
    obtain ⟨dc2, ac2, mc2, _, _, _, rfl⟩ := build_ok_elim cfg t kind vid lines hok
    simp only [buildLines] at hl
    obtain ⟨i, _, rfl⟩ := List.mem_map.mp (List.mem_of_mem_filter hl)
    refine ⟨?_, ?_, ?_⟩ <;> simp [buildLine, hse, hpe, hte]

/-- C3 witness: conversion of the table lacking sub-account, department
and tax columns succeeds. -/
theorem optional_columns_degrade_witness :
    (build_compound_voucher defaultConfig tblOpt Kind.keihi "KEIHI-20251002-002").isOk
      = true :=
  (optional_columns_degrade defaultConfig tblOpt Kind.keihi "KEIHI-20251002-002"
    rfl rfl rfl rfl rfl rfl (by decide)).1

/-- C1: on a category table whose first row has an unparseable amount and
whose second row has amount 100, the returned journal table's credit
amounts are `[0]` while its debit amounts are `[some 100]`: the whole
credit total was placed on the pre-filter first line, which the
invalid-amount filter then removed, so the credit sum (0) no longer
equals the debit sum (100) and the total does not sit on the first
surviving line. -/
theorem voucher_total_dropped_with_invalid_first_line :
    (build_compound_voucher defaultConfig tblC1 Kind.amex "AMEX-20251002-001").map
        (fun ls => (ls.map JLine.credAmount, ls.map JLine.debAmount))
      = Except.ok ([0], [some 100]) := rfl

/-- C4 counterexample: saving and reloading the built-in default
configuration does not yield an identical document — the Python `None`
key of its `TAX_MAP` section becomes the string key `"null"`. -/
theorem default_config_roundtrip_changed :
    save_then_load DEFAULT_CONFIG ≠ DEFAULT_CONFIG := by
  intro h
  have h2 := congrArg taxMapKeys h
  revert h2
  decide

/-- C4 (amended): saving then reloading is the identity exactly on
documents all of whose dict keys are strings; the built-in default
configuration is outside this class because of the `None` key in
`TAX_MAP`. -/
theorem roundtrip_identity_of_string_keys (v : PyVal) (h : strKeysV v = true) :
    save_then_load v = v :=
  rtV v h

/-- C4 witness: a small all-string-keys document survives the round-trip
unchanged. -/
theorem roundtrip_identity_of_string_keys_witness : save_then_load docW = docW :=
  roundtrip_identity_of_string_keys docW (by decide)
